import Mathlib

/-!
Verification of the symbolic-model-to-numeric-fit pipeline of `boilercore`.

The derivation notebook (`src/boilercore/stages/modelfun.ipynb`) poses the
fin heat-conduction ODE

  d2T/dx2 - h * P / (k * A_c) * (T - T_inf) = 0,  P = 2*pi*r,  A_c = pi*r^2

with initial conditions T(x_0) = T_0 and dT/dx at x_0 equal to q_0 / k, and
obtains its general solution `T_int_expr` from a single `dsolve` call.  The
coefficient h * P / (k * A_c) simplifies to 2 * h / (k * r), and the unique
solution of this initial-value problem is the hyperbolic closed form embedded
below.  The notebook then builds the water-domain and air-domain solutions by
substitution, forms a piecewise profile, specializes it with numeric model
inputs, and lambdifies it; a second notebook (`data/notebooks/fit.ipynb`)
deserializes the model and fits its free parameters.
-/

namespace Boilercore

/-- Decay parameter sqrt(h * P / (k * A_c)) = sqrt(2 * h / (k * r)) appearing
in the general solution returned by `dsolve`. -/
noncomputable def mParam (h k r : ℝ) : ℝ := Real.sqrt (2 * h / (k * r))

/-- General solution `T_int_expr` of the fin ODE with the initial conditions
T(x_0) = T_0 and dT/dx at x_0 equal to q_0 / k, as produced by the single
`dsolve` call in the derivation notebook (the unique solution of that
initial-value problem, in hyperbolic form). -/
noncomputable def T_int_expr (h k r T_inf T_0 q_0 x_0 x : ℝ) : ℝ :=
  T_inf + (T_0 - T_inf) * Real.cosh (mParam h k r * (x - x_0))
    + q_0 / (k * mParam h k r) * Real.sinh (mParam h k r * (x - x_0))

/-- First derivative of `T_int_expr` with respect to position. -/
noncomputable def T_int_deriv (h k r T_inf T_0 q_0 x_0 x : ℝ) : ℝ :=
  (T_0 - T_inf) * (Real.sinh (mParam h k r * (x - x_0)) * mParam h k r)
    + q_0 / (k * mParam h k r) * (Real.cosh (mParam h k r * (x - x_0)) * mParam h k r)

/-- Second derivative of `T_int_expr` with respect to position. -/
noncomputable def T_int_deriv2 (h k r T_inf T_0 q_0 x_0 x : ℝ) : ℝ :=
  (T_0 - T_inf) * (Real.cosh (mParam h k r * (x - x_0)) * mParam h k r * mParam h k r)
    + q_0 / (k * mParam h k r)
      * (Real.sinh (mParam h k r * (x - x_0)) * mParam h k r * mParam h k r)

lemma hasDerivAt_linArg (m x0 x : ℝ) : HasDerivAt (fun y => m * (y - x0)) m x := by
  simpa using ((hasDerivAt_id x).sub_const x0).const_mul m

lemma T_int_hasDerivAt (h k r T_inf T_0 q_0 x_0 x : ℝ) :
    HasDerivAt (fun y => T_int_expr h k r T_inf T_0 q_0 x_0 y)
      (T_int_deriv h k r T_inf T_0 q_0 x_0 x) x := by
  have hc : HasDerivAt (fun y => Real.cosh (mParam h k r * (y - x_0)))
      (Real.sinh (mParam h k r * (x - x_0)) * mParam h k r) x :=
    (hasDerivAt_linArg (mParam h k r) x_0 x).cosh
  have hs : HasDerivAt (fun y => Real.sinh (mParam h k r * (y - x_0)))
      (Real.cosh (mParam h k r * (x - x_0)) * mParam h k r) x :=
    (hasDerivAt_linArg (mParam h k r) x_0 x).sinh
  exact ((hc.const_mul (T_0 - T_inf)).const_add T_inf).add
    (hs.const_mul (q_0 / (k * mParam h k r)))

lemma T_int_deriv_hasDerivAt (h k r T_inf T_0 q_0 x_0 x : ℝ) :
    HasDerivAt (fun y => T_int_deriv h k r T_inf T_0 q_0 x_0 y)
      (T_int_deriv2 h k r T_inf T_0 q_0 x_0 x) x := by
  have hc : HasDerivAt (fun y => Real.cosh (mParam h k r * (y - x_0)))
      (Real.sinh (mParam h k r * (x - x_0)) * mParam h k r) x :=
    (hasDerivAt_linArg (mParam h k r) x_0 x).cosh
  have hs : HasDerivAt (fun y => Real.sinh (mParam h k r * (y - x_0)))
      (Real.cosh (mParam h k r * (x - x_0)) * mParam h k r) x :=
    (hasDerivAt_linArg (mParam h k r) x_0 x).sinh
  exact ((hs.mul_const (mParam h k r)).const_mul (T_0 - T_inf)).add
    ((hc.mul_const (mParam h k r)).const_mul (q_0 / (k * mParam h k r)))

lemma deriv_T_int (h k r T_inf T_0 q_0 x_0 x : ℝ) :
    deriv (fun y => T_int_expr h k r T_inf T_0 q_0 x_0 y) x
      = T_int_deriv h k r T_inf T_0 q_0 x_0 x :=
  (T_int_hasDerivAt h k r T_inf T_0 q_0 x_0 x).deriv

lemma deriv_deriv_T_int (h k r T_inf T_0 q_0 x_0 x : ℝ) :
    deriv (deriv (fun y => T_int_expr h k r T_inf T_0 q_0 x_0 y)) x
      = T_int_deriv2 h k r T_inf T_0 q_0 x_0 x := by
  have h1 : (deriv fun y => T_int_expr h k r T_inf T_0 q_0 x_0 y)
      = fun y => T_int_deriv h k r T_inf T_0 q_0 x_0 y :=
    funext fun y => (T_int_hasDerivAt h k r T_inf T_0 q_0 x_0 y).deriv
  rw [h1]
  exact (T_int_deriv_hasDerivAt h k r T_inf T_0 q_0 x_0 x).deriv

lemma mParam_pos (h k r : ℝ) (hh : 0 < h) (hk : 0 < k) (hr : 0 < r) :
    0 < mParam h k r :=
  Real.sqrt_pos.2 (div_pos (by linarith) (mul_pos hk hr))

lemma mParam_sq (h k r : ℝ) (hh : 0 < h) (hk : 0 < k) (hr : 0 < r) :
    mParam h k r ^ 2 = 2 * h / (k * r) :=
  Real.sq_sqrt (le_of_lt (div_pos (by linarith) (mul_pos hk hr)))

/-- Coefficient in front of (T - T_inf) in the notebook ODE, with
P = 2 * pi * r and A_c = pi * r ^ 2 written out as in the source. -/
noncomputable def odeCoeff (h k r : ℝ) : ℝ :=
  h * (2 * Real.pi * r) / (k * (Real.pi * r ^ 2))

lemma odeCoeff_eq (h k r : ℝ) (hk : 0 < k) (hr : 0 < r) :
    odeCoeff h k r = 2 * h / (k * r) := by
  have hpi : Real.pi ≠ 0 := Real.pi_ne_zero
  have hk0 : k ≠ 0 := ne_of_gt hk
  have hr0 : r ≠ 0 := ne_of_gt hr
  unfold odeCoeff
  field_simp
  ring

lemma T_int_solves_ode (h k r T_inf T_0 q_0 x_0 x : ℝ)
    (hh : 0 < h) (hk : 0 < k) (hr : 0 < r) :
    deriv (deriv (fun y => T_int_expr h k r T_inf T_0 q_0 x_0 y)) x
      - odeCoeff h k r * (T_int_expr h k r T_inf T_0 q_0 x_0 x - T_inf) = 0 := by
  rw [deriv_deriv_T_int, odeCoeff_eq h k r hk hr, ← mParam_sq h k r hh hk hr]
  unfold T_int_deriv2 T_int_expr
  ring

lemma T_int_at_x0 (h k r T_inf T_0 q_0 x_0 : ℝ) :
    T_int_expr h k r T_inf T_0 q_0 x_0 x_0 = T_0 := by
  unfold T_int_expr
  simp

lemma deriv_T_int_at_x0 (h k r T_inf T_0 q_0 x_0 : ℝ)
    (hh : 0 < h) (hk : 0 < k) (hr : 0 < r) :
    deriv (fun y => T_int_expr h k r T_inf T_0 q_0 x_0 y) x_0 = q_0 / k := by
  have hm : mParam h k r ≠ 0 := ne_of_gt (mParam_pos h k r hh hk hr)
  have hk0 : k ≠ 0 := ne_of_gt hk
  rw [deriv_T_int]
  unfold T_int_deriv
  simp
  field_simp
  ring

/-- Claim C1: the general solution `T_int_expr` produced by the single
`dsolve` call satisfies the boundary-value heat-conduction ODE
d2T/dx2 - h * P / (k * A_c) * (T - T_inf) = 0 with P = 2 * pi * r and
A_c = pi * r ^ 2, together with T(x_0) = T_0 and dT/dx at x_0 equal to
q_0 / k, for every value of the (positive) physical parameters h, k, r and
every T_inf, T_0, q_0, x_0. -/
theorem T_int_expr_solves_ode_and_ics (h k r T_inf T_0 q_0 x_0 x : ℝ)
    (hh : 0 < h) (hk : 0 < k) (hr : 0 < r) :
    deriv (deriv (fun y => T_int_expr h k r T_inf T_0 q_0 x_0 y)) x
        - h * (2 * Real.pi * r) / (k * (Real.pi * r ^ 2))
          * (T_int_expr h k r T_inf T_0 q_0 x_0 x - T_inf) = 0
      ∧ T_int_expr h k r T_inf T_0 q_0 x_0 x_0 = T_0
      ∧ deriv (fun y => T_int_expr h k r T_inf T_0 q_0 x_0 y) x_0 = q_0 / k :=
  ⟨T_int_solves_ode h k r T_inf T_0 q_0 x_0 x hh hk hr,
   T_int_at_x0 h k r T_inf T_0 q_0 x_0,
   deriv_T_int_at_x0 h k r T_inf T_0 q_0 x_0 hh hk hr⟩

/-- Witness for claim C1 at h = k = r = 1, T_inf = 0, T_0 = 3, q_0 = 2,
x_0 = 0, evaluated at x = 5. -/
theorem T_int_expr_solves_ode_and_ics_witness :
    (0 : ℝ) < 1
      ∧ (deriv (deriv (fun y => T_int_expr 1 1 1 0 3 2 0 y)) 5
            - 1 * (2 * Real.pi * 1) / (1 * (Real.pi * 1 ^ 2))
              * (T_int_expr 1 1 1 0 3 2 0 5 - 0) = 0
          ∧ T_int_expr 1 1 1 0 3 2 0 0 = 3
          ∧ deriv (fun y => T_int_expr 1 1 1 0 3 2 0 y) 0 = 2 / 1) :=
  ⟨zero_lt_one,
   T_int_expr_solves_ode_and_ics 1 1 1 0 3 2 0 5 zero_lt_one zero_lt_one zero_lt_one⟩

/-- Water-domain solution: `T_int_expr` under the substitution
h -> h_w, q_0 -> q_s, T_0 -> T_s, T_inf -> T_infw, x_0 -> x_s. -/
noncomputable def T_w_expr (k r h_w T_infw T_s q_s x_s x : ℝ) : ℝ :=
  T_int_expr h_w k r T_infw T_s q_s x_s x

/-- Temperature at the domain transition: `T_w_expr` with x -> x_wa. -/
noncomputable def T_wa_expr_w (k r h_w T_infw T_s q_s x_s x_wa : ℝ) : ℝ :=
  T_w_expr k r h_w T_infw T_s q_s x_s x_wa

/-- Heat flux at the domain transition: derivative of `T_w_expr` at x_wa,
times k. -/
noncomputable def q_wa_expr_w (k r h_w T_infw T_s q_s x_s x_wa : ℝ) : ℝ :=
  deriv (fun y => T_w_expr k r h_w T_infw T_s q_s x_s y) x_wa * k

/-- Air-domain solution: `T_int_expr` under the substitution h -> h_a,
q_0 -> q_wa, T_0 -> T_wa, T_inf -> T_infa, x_0 -> x_wa, followed by the
substitution of the interface temperature `T_wa_expr_w` and interface flux
`q_wa_expr_w`. -/
noncomputable def T_a_expr (k r h_w T_infw T_s q_s x_s h_a T_infa x_wa x : ℝ) : ℝ :=
  T_int_expr h_a k r T_infa (T_wa_expr_w k r h_w T_infw T_s q_s x_s x_wa)
    (q_wa_expr_w k r h_w T_infw T_s q_s x_s x_wa) x_wa x

/-- Piecewise temperature distribution: `Piecewise((T_w_expr, x < x_wa),
(T_a_expr, True))`. -/
noncomputable def T_expr (k r h_w T_infw T_s q_s x_s h_a T_infa x_wa x : ℝ) : ℝ :=
  if x < x_wa then T_w_expr k r h_w T_infw T_s q_s x_s x
  else T_a_expr k r h_w T_infw T_s q_s x_s h_a T_infa x_wa x

/-- Claim C2: for every assignment of the model parameters (with positive
h_a, k, r), the water-domain and air-domain solutions agree at the
domain-transition coordinate x_wa both in temperature and in heat flux
(k times the position derivative), so the piecewise profile is continuous
with continuous flux at x_wa. -/
theorem matching_conditions_at_interface (k r h_w T_infw T_s q_s x_s h_a T_infa x_wa : ℝ)
    (hha : 0 < h_a) (hk : 0 < k) (hr : 0 < r) :
    T_w_expr k r h_w T_infw T_s q_s x_s x_wa
        = T_a_expr k r h_w T_infw T_s q_s x_s h_a T_infa x_wa x_wa
      ∧ k * deriv (fun y => T_w_expr k r h_w T_infw T_s q_s x_s y) x_wa
        = k * deriv (fun y => T_a_expr k r h_w T_infw T_s q_s x_s h_a T_infa x_wa y) x_wa := by
  have hk0 : k ≠ 0 := ne_of_gt hk
  constructor
  · show T_w_expr k r h_w T_infw T_s q_s x_s x_wa
      = T_int_expr h_a k r T_infa (T_wa_expr_w k r h_w T_infw T_s q_s x_s x_wa)
        (q_wa_expr_w k r h_w T_infw T_s q_s x_s x_wa) x_wa x_wa
    rw [T_int_at_x0]
    rfl
  · have hd : deriv (fun y => T_a_expr k r h_w T_infw T_s q_s x_s h_a T_infa x_wa y) x_wa
        = q_wa_expr_w k r h_w T_infw T_s q_s x_s x_wa / k :=
      deriv_T_int_at_x0 h_a k r T_infa (T_wa_expr_w k r h_w T_infw T_s q_s x_s x_wa)
        (q_wa_expr_w k r h_w T_infw T_s q_s x_s x_wa) x_wa hha hk hr
    rw [hd]
    unfold q_wa_expr_w
    field_simp

/-- Witness for claim C2 at k = r = h_a = 1 and zero remaining parameters. -/
theorem matching_conditions_at_interface_witness :
    (0 : ℝ) < 1
      ∧ (T_w_expr 1 1 1 0 0 0 0 0 = T_a_expr 1 1 1 0 0 0 0 1 0 0 0
          ∧ 1 * deriv (fun y => T_w_expr 1 1 1 0 0 0 0 y) 0
            = 1 * deriv (fun y => T_a_expr 1 1 1 0 0 0 0 1 0 0 y) 0) :=
  ⟨zero_lt_one,
   matching_conditions_at_interface 1 1 1 0 0 0 0 1 0 0 zero_lt_one zero_lt_one zero_lt_one⟩

/-- Claim C3: the piecewise temperature profile equals the water-domain
expression `T_w_expr` when x < x_wa and the air-domain expression `T_a_expr`
when x_wa <= x. -/
theorem T_expr_piecewise_split (k r h_w T_infw T_s q_s x_s h_a T_infa x_wa x : ℝ) :
    (x < x_wa →
        T_expr k r h_w T_infw T_s q_s x_s h_a T_infa x_wa x
          = T_w_expr k r h_w T_infw T_s q_s x_s x)
      ∧ (x_wa ≤ x →
        T_expr k r h_w T_infw T_s q_s x_s h_a T_infa x_wa x
          = T_a_expr k r h_w T_infw T_s q_s x_s h_a T_infa x_wa x) := by
  constructor
  · intro hlt
    unfold T_expr
    rw [if_pos hlt]
  · intro hge
    unfold T_expr
    rw [if_neg (not_lt.2 hge)]

/-- Witness for claim C3 at x = 0, x_wa = 1 for the water branch and x = 2,
x_wa = 1 for the air branch. -/
theorem T_expr_piecewise_split_witness :
    ((0 : ℝ) < 1 ∧ T_expr 1 1 1 0 0 0 0 1 0 1 0 = T_w_expr 1 1 1 0 0 0 0 0)
      ∧ ((1 : ℝ) ≤ 2 ∧ T_expr 1 1 1 0 0 0 0 1 0 1 2 = T_a_expr 1 1 1 0 0 0 0 1 0 1 2) :=
  ⟨⟨zero_lt_one, (T_expr_piecewise_split 1 1 1 0 0 0 0 1 0 1 0).1 zero_lt_one⟩,
   ⟨one_le_two, (T_expr_piecewise_split 1 1 1 0 0 0 0 1 0 1 2).2 one_le_two⟩⟩

/-- Unit conversion factor: class attribute `cm2_p_m2 = 100 ** 2` of
`Models`. -/
def cm2_p_m2 : ℕ := 100 ^ 2

/-- Lambdified model function `Models.basic`: the piecewise profile after
substituting the numeric model inputs of `PARAMS.fit.model_inputs`
(r, T_infw, T_infa, x_s, x_wa) together with q_s -> q_s * cm2_p_m2, then
lambdified with the fit parameters and position as arguments. -/
noncomputable def Models_basic (r T_infw T_infa x_s x_wa x T_s q_s k h_a h_w : ℝ) : ℝ :=
  T_expr k r h_w T_infw T_s (q_s * (cm2_p_m2 : ℝ)) x_s h_a T_infa x_wa x

/-- Claim C9: the callable model interprets q_s in W/cm^2 while the symbolic
expression is in W/m^2: the `Models` constructor substitutes q_s multiplied
by exactly cm2_p_m2 = 100 ^ 2 = 10000, applied once, so for every assignment
of the parameters the lambdified model at heat flux q_s equals the symbolic
piecewise profile at heat flux 10000 * q_s. -/
theorem models_basic_q_s_unit_conversion (r T_infw T_infa x_s x_wa x T_s q_s k h_a h_w : ℝ) :
    cm2_p_m2 = 10000
      ∧ Models_basic r T_infw T_infa x_s x_wa x T_s q_s k h_a h_w
        = T_expr k r h_w T_infw T_s (10000 * q_s) x_s h_a T_infa x_wa x := by
  have hq : q_s * ((cm2_p_m2 : ℕ) : ℝ) = 10000 * q_s := by
    have : ((cm2_p_m2 : ℕ) : ℝ) = 10000 := by norm_num [cm2_p_m2]
    rw [this, mul_comm]
  exact ⟨by norm_num [cm2_p_m2], by unfold Models_basic; rw [hq]⟩

/-- Symbols appearing in the derivation notebook, as imported from
`boilercore.syms`: position x, the five fit parameters, the model inputs,
and the intermediate variables of the general solution. -/
inductive Sym where
  | x | T_s | q_s | k | h_a | h_w
  | r | T_infa | T_infw | x_s | x_wa
  | h | q_0 | q_wa | T_0 | T_inf | T_wa | x_0
  deriving DecidableEq

/-- Symbolic expressions of the derivation notebook, deep-embedded: symbols,
rational numerals, pi, arithmetic, square root, hyperbolic functions, and a
two-branch piecewise expression guarded by a strict comparison of two
subexpressions (`Piecewise((e1, a < b), (e2, True))`). -/
inductive SExpr where
  | sym : Sym → SExpr
  | num : ℚ → SExpr
  | pi : SExpr
  | add : SExpr → SExpr → SExpr
  | sub : SExpr → SExpr → SExpr
  | mul : SExpr → SExpr → SExpr
  | div : SExpr → SExpr → SExpr
  | sqrt : SExpr → SExpr
  | cosh : SExpr → SExpr
  | sinh : SExpr → SExpr
  | piecewiseLt : SExpr → SExpr → SExpr → SExpr → SExpr
  deriving DecidableEq

/-- Simultaneous substitution of expressions for symbols, the deep-embedded
counterpart of the `subs` calls in the derivation notebook. -/
def subst (σ : Sym → Option SExpr) : SExpr → SExpr
  | .sym s => (σ s).getD (.sym s)
  | .num q => .num q
  | .pi => .pi
  | .add a b => .add (subst σ a) (subst σ b)
  | .sub a b => .sub (subst σ a) (subst σ b)
  | .mul a b => .mul (subst σ a) (subst σ b)
  | .div a b => .div (subst σ a) (subst σ b)
  | .sqrt a => .sqrt (subst σ a)
  | .cosh a => .cosh (subst σ a)
  | .sinh a => .sinh (subst σ a)
  | .piecewiseLt a b u v => .piecewiseLt (subst σ a) (subst σ b) (subst σ u) (subst σ v)

/-- Symbolic differentiation with respect to the position symbol x, the
deep-embedded counterpart of the `diff(x)` calls in the derivation
notebook. -/
def sdiff : SExpr → SExpr
  | .sym .x => .num 1
  | .sym _ => .num 0
  | .num _ => .num 0
  | .pi => .num 0
  | .add a b => .add (sdiff a) (sdiff b)
  | .sub a b => .sub (sdiff a) (sdiff b)
  | .mul a b => .add (.mul (sdiff a) b) (.mul a (sdiff b))
  | .div a b => .div (.sub (.mul (sdiff a) b) (.mul a (sdiff b))) (.mul b b)
  | .sqrt a => .div (sdiff a) (.mul (.num 2) (.sqrt a))
  | .cosh a => .mul (.sinh a) (sdiff a)
  | .sinh a => .mul (.cosh a) (sdiff a)
  | .piecewiseLt a b u v => .piecewiseLt a b (sdiff u) (sdiff v)

/-- Free symbols of a symbolic expression. -/
def freeSyms : SExpr → Finset Sym
  | .sym s => {s}
  | .num _ => ∅
  | .pi => ∅
  | .add a b => freeSyms a ∪ freeSyms b
  | .sub a b => freeSyms a ∪ freeSyms b
  | .mul a b => freeSyms a ∪ freeSyms b
  | .div a b => freeSyms a ∪ freeSyms b
  | .sqrt a => freeSyms a
  | .cosh a => freeSyms a
  | .sinh a => freeSyms a
  | .piecewiseLt a b u v => freeSyms a ∪ freeSyms b ∪ freeSyms u ∪ freeSyms v

/-- Substitution mapping a single symbol to an expression, as in
`expr.subs(s, e)`. -/
def single (s : Sym) (e : SExpr) : Sym → Option SExpr :=
  fun t => if t = s then some e else none

/-- Decay parameter of the general solution, as a symbolic expression. -/
def mAST : SExpr :=
  .sqrt (.div (.mul (.num 2) (.sym .h)) (.mul (.sym .k) (.sym .r)))

/-- Argument of the hyperbolic functions in the general solution. -/
def uAST : SExpr := .mul mAST (.sub (.sym .x) (.sym .x_0))

/-- General solution of the fin ODE with its two initial conditions, as a
symbolic expression: the deep-embedded counterpart of the `dsolve` output
`T_int_expr` (the unique solution of the initial-value problem posed in the
notebook, in hyperbolic form over the same symbols). -/
def T_int_exprAST : SExpr :=
  .add (.add (.sym .T_inf)
      (.mul (.sub (.sym .T_0) (.sym .T_inf)) (.cosh uAST)))
    (.mul (.div (.sym .q_0) (.mul (.sym .k) mAST)) (.sinh uAST))

/-- Water-domain substitution of the notebook:
h -> h_w, q_0 -> q_s, T_0 -> T_s, T_inf -> T_infw, x_0 -> x_s. -/
def waterSubs : Sym → Option SExpr
  | .h => some (.sym .h_w)
  | .q_0 => some (.sym .q_s)
  | .T_0 => some (.sym .T_s)
  | .T_inf => some (.sym .T_infw)
  | .x_0 => some (.sym .x_s)
  | _ => none

/-- Water-domain solution, symbolically. -/
def T_w_exprAST : SExpr := subst waterSubs T_int_exprAST

/-- Temperature at the domain transition, symbolically. -/
def T_wa_expr_wAST : SExpr := subst (single .x (.sym .x_wa)) T_w_exprAST

/-- Heat flux at the domain transition, symbolically:
`T_w_expr.diff(x).subs(x, x_wa) * k`. -/
def q_wa_expr_wAST : SExpr :=
  .mul (subst (single .x (.sym .x_wa)) (sdiff T_w_exprAST)) (.sym .k)

/-- Air-domain substitution of the notebook:
h -> h_a, q_0 -> q_wa, T_0 -> T_wa, T_inf -> T_infa, x_0 -> x_wa. -/
def airSubs : Sym → Option SExpr
  | .h => some (.sym .h_a)
  | .q_0 => some (.sym .q_wa)
  | .T_0 => some (.sym .T_wa)
  | .T_inf => some (.sym .T_infa)
  | .x_0 => some (.sym .x_wa)
  | _ => none

/-- Air-domain solution before substituting the interface values. -/
def T_a_int_exprAST : SExpr := subst airSubs T_int_exprAST

/-- Substitution of the interface temperature and flux into the air-domain
solution: q_wa -> q_wa_expr_w, T_wa -> T_wa_expr_w. -/
def interfaceSubs : Sym → Option SExpr
  | .q_wa => some q_wa_expr_wAST
  | .T_wa => some T_wa_expr_wAST
  | _ => none

/-- Air-domain solution with the interface values substituted. -/
def T_a_exprAST : SExpr := subst interfaceSubs T_a_int_exprAST

/-- Piecewise temperature distribution, symbolically:
`Piecewise((T_w_expr, x < x_wa), (T_a_expr, True))`. -/
def T_exprAST : SExpr := .piecewiseLt (.sym .x) (.sym .x_wa) T_w_exprAST T_a_exprAST

/-- Substitution performed by `Models.__init__` inside `evalf`: the numeric
model inputs of `PARAMS.fit.model_inputs` (whose concrete values live outside
this repository and are taken as arbitrary rationals) together with
q_s -> q_s * cm2_p_m2. -/
def modelInputSubs (vr vTinfa vTinfw vxs vxwa : ℚ) : Sym → Option SExpr
  | .r => some (.num vr)
  | .T_infa => some (.num vTinfa)
  | .T_infw => some (.num vTinfw)
  | .x_s => some (.num vxs)
  | .x_wa => some (.num vxwa)
  | .q_s => some (.mul (.sym .q_s) (.num 10000))
  | _ => none

/-- Specialized piecewise expression produced by `Models.__init__`. -/
def specializedAST (vr vTinfa vTinfw vxs vxwa : ℚ) : SExpr :=
  subst (modelInputSubs vr vTinfa vTinfw vxs vxwa) T_exprAST

/-- Library calls made by the derivation notebook, in source order. -/
inductive LibCall where
  | dsolveCall : LibCall
  | evalfCall : Bool → LibCall
  | lambdifyCall : LibCall
  | dillDumps : LibCall
  deriving DecidableEq

/-- Trace of library calls in the derivation notebook, in execution order:
one `dsolve` call, one `evalf` call with strict = True, the two `lambdify`
calls of `Models.__init__` (producing `basic` and `for_ufloat`), and one
`dill.dumps` call. -/
def modelfunLibCalls : List LibCall :=
  [.dsolveCall, .evalfCall true, .lambdifyCall, .lambdifyCall, .dillDumps]

/-- Counterexample to claim C4 as stated: the derivation notebook does not
make exactly one `lambdify` call; `Models.__init__` makes two (`basic` and
`for_ufloat`). -/
theorem modelfun_not_single_lambdify :
    modelfunLibCalls.count LibCall.lambdifyCall ≠ 1 := by decide

/-- Claim C4, amended: the water-domain solution is the general solution
under the water-side substitution, the air-domain solution is the general
solution under the air-side substitution followed by substitution of the
interface temperature and flux, exactly one `dsolve` call occurs, and
exactly two `lambdify` calls (for the `basic` and `for_ufloat` variants)
produce the numeric model functions. -/
theorem derivation_single_dsolve_two_lambdify :
    T_w_exprAST = subst waterSubs T_int_exprAST
      ∧ T_a_exprAST = subst interfaceSubs (subst airSubs T_int_exprAST)
      ∧ modelfunLibCalls.count LibCall.dsolveCall = 1
      ∧ modelfunLibCalls.count LibCall.lambdifyCall = 2 :=
  ⟨rfl, rfl, by decide, by decide⟩

/-- Counterexample to claim C10 as stated: after substituting the model
inputs, the remaining free symbols of the specialized expression are not
exactly the five fit parameters; the position symbol x also remains free. -/
theorem specialized_free_symbols_not_five :
    freeSyms (specializedAST 1 1 1 1 1)
      ≠ ({Sym.T_s, Sym.q_s, Sym.k, Sym.h_a, Sym.h_w} : Finset Sym) := by decide

/-- Claim C10, amended: `Models.__init__` evaluates the piecewise expression
with `evalf(..., strict=True)` after substituting all numeric model inputs
(so evaluation of a bad input fails loudly), and for every assignment of the
model input values the remaining free symbols of the specialized expression
are exactly the position x and the five fit parameters T_s, q_s, k, h_a,
h_w, which are the lambdify arguments: the serialized model is closed over
all geometry and ambient inputs. -/
theorem specialized_free_symbols (vr vTinfa vTinfw vxs vxwa : ℚ) :
    freeSyms (specializedAST vr vTinfa vTinfw vxs vxwa)
        = ({Sym.x, Sym.T_s, Sym.q_s, Sym.k, Sym.h_a, Sym.h_w} : Finset Sym)
      ∧ modelfunLibCalls.contains (LibCall.evalfCall true) = true := by
  constructor
  · simp only [specializedAST, T_exprAST, T_w_exprAST, T_a_exprAST, T_a_int_exprAST,
      T_int_exprAST, T_wa_expr_wAST, q_wa_expr_wAST, uAST, mAST, subst, sdiff, freeSyms,
      modelInputSubs, waterSubs, airSubs, interfaceSubs, single]
    decide
  · decide

/-- Modelled from the spec: the resolved filename of the serialized model
artifact. The path value `PARAMS.paths.model` and the resolution done by
`boilercore.modelfun.get_model` are not under src/ (only their callers are);
per the spec the artifact filename is keyed loosely by the interpreter
version, matching the per-version DVC stages `modelfun-3.11` and
`modelfun-3.12` in tasks.json. -/
def modelFileName (interpVersion : String) : String :=
  "model-" ++ interpVersion ++ ".dillpickle"

/-- Modelled from the spec: full path of the serialized model artifact, under
the data directory used by the fit notebook. -/
def modelPath (interpVersion : String) : String :=
  "data/" ++ modelFileName interpVersion

/-- Claim C6: the filename of the model artifact written by the derivation
stage and read by the fit stage incorporates the Python interpreter
version. -/
theorem model_filename_keyed_by_interpreter_version :
    ∀ v : String, modelPath v = "data/" ++ modelFileName v
      ∧ ∃ pre post, modelFileName v = pre ++ v ++ post :=
  fun _v => ⟨rfl, "model-", ".dillpickle", rfl⟩

/-- File operations performed by the pipeline stages. -/
inductive FileOp where
  | write : String → FileOp
  | read : String → FileOp
  deriving DecidableEq

/-- Whether a file operation is a write. -/
def FileOp.isWrite : FileOp → Bool
  | .write _ => true
  | .read _ => false

/-- Path touched by a file operation. -/
def FileOp.path : FileOp → String
  | .write p => p
  | .read p => p

/-- File operations of the derivation notebook: its only persistent-state
access is `PARAMS.paths.model.write_bytes(dill.dumps(models))`. -/
def modelfunFileOps (v : String) : List FileOp := [.write (modelPath v)]

/-- File operations of the fit notebook: its only persistent-state access is
the `get_model` read of the serialized model. -/
def fitFileOps (v : String) : List FileOp := [.read (modelPath v)]

/-- Claim C8: the only persistent-state I/O in the pipeline is the single
serialized model file: the derivation stage writes exactly one file and
reads none, the fit stage reads exactly one file and writes none, and the
two paths coincide. -/
theorem single_model_file_io :
    ∀ v : String,
      ((modelfunFileOps v).filter (fun o => o.isWrite)).map FileOp.path = [modelPath v]
        ∧ (modelfunFileOps v).filter (fun o => !o.isWrite) = []
        ∧ ((fitFileOps v).filter (fun o => !o.isWrite)).map FileOp.path = [modelPath v]
        ∧ (fitFileOps v).filter (fun o => o.isWrite) = [] := by
  intro v
  refine ⟨?_, ?_, ?_, ?_⟩ <;> simp [modelfunFileOps, fitFileOps, FileOp.isWrite, FileOp.path]

/-- Derivation stage as a fallible pipeline: solve the ODE, specialize the
solution, lambdify it, and serialize the result, with every failure of an
underlying library call propagating unchanged (the notebook has no
try/except, retry, or recovery construct). -/
def runModelfun {α β γ δ : Type} (dsolveStep : Except String α)
    (specializeStep : α → Except String β) (lambdifyStep : β → Except String γ)
    (writeStep : γ → Except String δ) : Except String δ := do
  let gen ← dsolveStep
  let spec ← specializeStep gen
  let fn ← lambdifyStep spec
  writeStep fn

/-- Fit stage as a fallible pipeline: read the serialized model, then fit,
with every failure of an underlying library call propagating unchanged (the
notebook has no try/except, retry, or recovery construct). -/
def runFit {μ φ : Type} (readStep : Except String μ)
    (fitStep : μ → Except String φ) : Except String φ := do
  let m ← readStep
  fitStep m

/-- Exception handlers in the derivation notebook: none. -/
def modelfunHandlers : List String := []

/-- Exception handlers in the fit notebook: none. -/
def fitHandlers : List String := []

/-- Warning filters in the derivation notebook: the single
`warnings.simplefilter("ignore", dill.PicklingWarning)` wrapped around
serialization, which suppresses a warning class, not an exception. -/
def modelfunWarningFilters : List String := ["PicklingWarning"]

/-- Claim C7: every failure in either stage propagates unchanged to the
caller: a failing solve, specialization, lambdify, write, model read, or fit
surfaces as exactly the error the library raised; no handler, retry, or
recovery exists in either stage, and the only suppression anywhere is of the
PicklingWarning warning class during serialization. -/
theorem failures_propagate_unchanged {α β γ δ μ φ : Type} (e : String)
    (dsolveStep : Except String α) (specializeStep : α → Except String β)
    (lambdifyStep : β → Except String γ) (writeStep : γ → Except String δ)
    (readStep : Except String μ) (fitStep : μ → Except String φ) :
    (dsolveStep = .error e →
        runModelfun dsolveStep specializeStep lambdifyStep writeStep = .error e)
      ∧ (∀ a, dsolveStep = .ok a → specializeStep a = .error e →
        runModelfun dsolveStep specializeStep lambdifyStep writeStep = .error e)
      ∧ (∀ a b, dsolveStep = .ok a → specializeStep a = .ok b → lambdifyStep b = .error e →
        runModelfun dsolveStep specializeStep lambdifyStep writeStep = .error e)
      ∧ (∀ a b c, dsolveStep = .ok a → specializeStep a = .ok b → lambdifyStep b = .ok c →
          writeStep c = .error e →
        runModelfun dsolveStep specializeStep lambdifyStep writeStep = .error e)
      ∧ (readStep = .error e → runFit readStep fitStep = .error e)
      ∧ (∀ m, readStep = .ok m → fitStep m = .error e → runFit readStep fitStep = .error e)
      ∧ modelfunHandlers = [] ∧ fitHandlers = []
      ∧ modelfunWarningFilters = ["PicklingWarning"] := by
  refine ⟨?_, ?_, ?_, ?_, ?_, ?_, rfl, rfl, rfl⟩
  · intro h1; rw [h1]; rfl
  · intro a h1 h2
    rw [h1]
    have hstep : runModelfun (Except.ok a) specializeStep lambdifyStep writeStep
        = Except.bind (specializeStep a)
          (fun spec => Except.bind (lambdifyStep spec) fun fn => writeStep fn) := rfl
    rw [hstep, h2]
    rfl
  · intro a b h1 h2 h3
    rw [h1]
    have hstep : runModelfun (Except.ok a) specializeStep lambdifyStep writeStep
        = Except.bind (specializeStep a)
          (fun spec => Except.bind (lambdifyStep spec) fun fn => writeStep fn) := rfl
    rw [hstep, h2]
    have hstep2 : Except.bind (Except.ok b)
          (fun spec => Except.bind (lambdifyStep spec) fun fn => writeStep fn)
        = Except.bind (lambdifyStep b) fun fn => writeStep fn := rfl
    rw [hstep2, h3]
    rfl
  · intro a b c h1 h2 h3 h4
    rw [h1]
    have hstep : runModelfun (Except.ok a) specializeStep lambdifyStep writeStep
        = Except.bind (specializeStep a)
          (fun spec => Except.bind (lambdifyStep spec) fun fn => writeStep fn) := rfl
    rw [hstep, h2]
    have hstep2 : Except.bind (Except.ok b)
          (fun spec => Except.bind (lambdifyStep spec) fun fn => writeStep fn)
        = Except.bind (lambdifyStep b) fun fn => writeStep fn := rfl
    rw [hstep2, h3]
    have hstep3 : (Except.bind (Except.ok c) fun fn => writeStep fn) = writeStep c := rfl
    rw [hstep3, h4]
  · intro h1; rw [h1]; rfl
  · intro m h1 h2; rw [h1]; exact h2

/-- Witness for claim C7: a failing `dsolve` surfaces its own error from the
derivation stage, and a missing model file surfaces its own error from the
fit stage. -/
theorem failures_propagate_unchanged_witness :
    runModelfun (Except.error "dsolve failed" : Except String Unit)
        (fun _ : Unit => Except.ok ()) (fun _ : Unit => Except.ok ())
        (fun _ : Unit => Except.ok ()) = Except.error "dsolve failed"
      ∧ runFit (Except.error "model file not found" : Except String Unit)
        (fun _ : Unit => Except.ok ()) = Except.error "model file not found" :=
  ⟨(failures_propagate_unchanged "dsolve failed" (Except.error "dsolve failed")
      (fun _ : Unit => Except.ok ()) (fun _ : Unit => Except.ok ())
      (fun _ : Unit => Except.ok ()) (Except.ok ()) (fun _ : Unit => Except.ok ())).1 rfl,
   (failures_propagate_unchanged "model file not found" (Except.ok ())
      (fun _ : Unit => Except.ok ()) (fun _ : Unit => Except.ok ())
      (fun _ : Unit => Except.ok ())
      (Except.error "model file not found" : Except String Unit)
      (fun _ : Unit => Except.ok ())).2.2.2.2.1 rfl⟩

/-- Names of the five free parameters estimated by the fit stage. -/
def fitParamNames : List String := ["T_s", "q_s", "k", "h_a", "h_w"]

/-- Modelled from the spec: `boilercore.fits.fit_and_plot` is not under src/
(only its notebook callers are); per the spec it estimates the free
parameters from measured temperatures by a single call to a standard
nonlinear least-squares routine and returns the fitted parameter values
together with their propagated errors. The least-squares routine itself is
an external library call, passed in abstractly. -/
def fit_and_plot {M : Type} (curveFit : M → List ℝ → List ℝ → List ℝ × List ℝ)
    (model : M) (y y_errors : List ℝ) : List ℝ × List ℝ :=
  curveFit model y y_errors

/-- Modelled from the spec: `boilercore.fits.combine_params_and_errors` is
not under src/ (only its notebook callers are); per the spec it merges the
fitted parameter values and the propagated errors into a single mapping with
one entry per fitted parameter and one entry per propagated error. -/
def combine_params_and_errors (vals errs : List ℝ) : List (String × ℝ) :=
  fitParamNames.zip vals ++ (fitParamNames.map (fun nm => nm ++ "_err")).zip errs

lemma exists_zip_mem {α β : Type} (a : α) :
    ∀ (l : List α) (l2 : List β), a ∈ l → l.length = l2.length →
      ∃ b, (a, b) ∈ l.zip l2 := by
  intro l
  induction l with
  | nil => intro l2 ha _; cases ha
  | cons x xs ih =>
    intro l2 ha hlen
    cases l2 with
    | nil => simp at hlen
    | cons y ys =>
      rcases List.mem_cons.1 ha with rfl | hmem
      · exact ⟨y, by simp⟩
      · rcases ih ys hmem (by simpa using hlen) with ⟨b, hb⟩
        exact ⟨b, by simp [hb]⟩

/-- Claim C5: for every fit run whose least-squares routine returns one
fitted value and one propagated error per free parameter, `fit_and_plot`
returns both lists, and `combine_params_and_errors` merges them into a
single mapping containing an entry for each fitted parameter and an entry
for each propagated error. -/
theorem fit_results_merge_complete {M : Type}
    (curveFit : M → List ℝ → List ℝ → List ℝ × List ℝ)
    (model : M) (y y_errors : List ℝ)
    (hv : (curveFit model y y_errors).1.length = fitParamNames.length)
    (he : (curveFit model y y_errors).2.length = fitParamNames.length) :
    ∀ n ∈ fitParamNames,
      (∃ v, (n, v) ∈ combine_params_and_errors
          (fit_and_plot curveFit model y y_errors).1
          (fit_and_plot curveFit model y y_errors).2)
        ∧ ∃ v, (n ++ "_err", v) ∈ combine_params_and_errors
          (fit_and_plot curveFit model y y_errors).1
          (fit_and_plot curveFit model y y_errors).2 := by
  intro n hn
  constructor
  · rcases exists_zip_mem n fitParamNames (curveFit model y y_errors).1 hn hv.symm
      with ⟨b, hb⟩
    exact ⟨b, List.mem_append_left _ hb⟩
  · have hmap : n ++ "_err" ∈ fitParamNames.map (fun nm => nm ++ "_err") :=
      List.mem_map_of_mem _ hn
    have hlen : (fitParamNames.map (fun nm => nm ++ "_err")).length
        = (curveFit model y y_errors).2.length := by
      rw [List.length_map, he]
    rcases exists_zip_mem (n ++ "_err") (fitParamNames.map (fun nm => nm ++ "_err"))
        (curveFit model y y_errors).2 hmap hlen with ⟨b, hb⟩
    exact ⟨b, List.mem_append_right _ hb⟩

/-- Witness for claim C5 with a least-squares routine returning five zeros
for both values and errors, checked at the parameter T_s. -/
theorem fit_results_merge_complete_witness :
    "T_s" ∈ fitParamNames
      ∧ ((∃ v, ("T_s", v) ∈ combine_params_and_errors
            (fit_and_plot (fun (_ : Unit) (_ _ : List ℝ) =>
              (([0, 0, 0, 0, 0] : List ℝ), ([0, 0, 0, 0, 0] : List ℝ))) () [] []).1
            (fit_and_plot (fun (_ : Unit) (_ _ : List ℝ) =>
              (([0, 0, 0, 0, 0] : List ℝ), ([0, 0, 0, 0, 0] : List ℝ))) () [] []).2)
          ∧ ∃ v, ("T_s" ++ "_err", v) ∈ combine_params_and_errors
            (fit_and_plot (fun (_ : Unit) (_ _ : List ℝ) =>
              (([0, 0, 0, 0, 0] : List ℝ), ([0, 0, 0, 0, 0] : List ℝ))) () [] []).1
            (fit_and_plot (fun (_ : Unit) (_ _ : List ℝ) =>
              (([0, 0, 0, 0, 0] : List ℝ), ([0, 0, 0, 0, 0] : List ℝ))) () [] []).2) :=
  ⟨by simp [fitParamNames],
   fit_results_merge_complete
     (fun (_ : Unit) (_ _ : List ℝ) =>
       (([0, 0, 0, 0, 0] : List ℝ), ([0, 0, 0, 0, 0] : List ℝ)))
     () [] [] rfl rfl "T_s" (by simp [fitParamNames])⟩

end Boilercore
